import Mathlib

/-
Verification of the data pipeline of the Gothenburg restaurants dashboard
(src/streamlit_app.py): fetching, CSV loading, category normalization and
rating/category filtering.

Modelling conventions:
* a pandas cell that may be NaN / missing is an `Option`;
* pandas comparisons (`>=`, `<=`, `==`) against a missing value are `false`,
  exactly as NaN comparisons evaluate to False in pandas;
* a DataFrame of restaurant records is a `List Row` (row order is the list
  order); the raw parsed frame keeps an explicit integer index column;
* rational numbers stand for the decimal ratings.
-/

namespace RestaurantApp

/-- Record type for one restaurant row: the columns the in-scope pipeline
reads (`title`, `rating`, `reviews`, `type`) plus the derived `cleaned_type`
column written by the normalizer.  Missing cells are `none`. -/
structure Row where
  title : String
  rating : Option ℚ
  reviews : Option Int
  type : Option String
  cleaned_type : Option String
deriving DecidableEq, Repr

/-- The fixed Swedish-to-English category mapping of
`clean_restaurant_types` (src/streamlit_app.py lines 46-98), verbatim,
including the two mojibake keys present in the source. -/
def type_mapping : List (String × String) := [
  ("Restaurang", "Restaurant"),
  ("Lunchrestaurang", "Restaurant"),
  ("Exklusiv restaurang", "Restaurant"),
  ("Vietnamesisk restaurang", "Vietnamese"),
  ("Indisk restaurang", "Indian"),
  ("Modern indisk restaurang", "Indian"),
  ("Kinesisk restaurang", "Chinese"),
  ("Japansk restaurang", "Japanese"),
  ("Koreansk restaurang", "Korean"),
  ("ThailÃ¤ndsk restaurang", "Thai"),
  ("Asiatisk restaurang", "Asian"),
  ("Asiatisk fusionrestaurang", "Asian Fusion"),
  ("Ramen-restaurang", "Japanese"),
  ("Palestinsk restaurang", "Palestinian"),
  ("Persisk restaurang", "Persian"),
  ("Turkisk restaurang", "Turkish"),
  ("Grekisk restaurang", "Greek"),
  ("Medelhavsrestaurang", "Mediterranean"),
  ("Etiopisk restaurang", "Ethiopian"),
  ("Argentinsk restaurang", "Argentinian"),
  ("Sydamerikansk restaurang", "South American"),
  ("Baskisk restaurang", "Basque"),
  ("Amerikansk restaurang", "American"),
  ("Svensk restaurang", "Swedish"),
  ("Fransk restaurang", "French"),
  ("Italiensk restaurang", "Italian"),
  ("Skandinavisk restaurang", "Scandinavian"),
  ("Europeisk restaurang", "European"),
  ("Modern europeisk restaurang", "Modern European"),
  ("Polsk restaurang", "Polish"),
  ("Tjeckisk restaurang", "Czech"),
  ("Nepalesisk restaurang", "Nepalese"),
  ("Bulgarisk restaurang", "Bulgarian"),
  ("Sushirestaurang", "Sushi"),
  ("Fiskrestaurang", "Seafood"),
  ("Fisk- och skaldjursrestaurang", "Seafood"),
  ("Kycklingrestaurang", "Chicken"),
  ("KÃ¶ttrÃ¤tter, restaurang", "Steakhouse"),
  ("Pizzeria", "Pizza"),
  ("Tacorestaurang", "Tacos"),
  ("Tapasrestaurang", "Tapas"),
  ("Tapasbar", "Tapas"),
  ("Hamburgerrestaurang", "Burgers"),
  ("Grillrestaurang", "Grill"),
  ("Brasserie", "Brasserie"),
  ("Bistro", "Bistro"),
  ("Gastropub", "Gastropub"),
  ("Vinbar", "Wine Bar"),
  ("Bar och grill", "Bar & Grill"),
  ("Bryggeripub", "Brewery Pub"),
  ("Fusion, restaurang", "Fusion")]

/-- One row of `df["type"].map(type_mapping).fillna(df["type"])`: a mapped
key becomes its image, an unmapped non-null value passes through verbatim
(`fillna` restores it), and a null `type` stays null (`map` yields NaN and
`fillna` refills it with the same NaN). -/
def clean_row (r : Row) : Row :=
  { r with cleaned_type := r.type.map (fun t => (type_mapping.lookup t).getD t) }

/-- Embedding of `clean_restaurant_types` (src/streamlit_app.py lines
41-100): writes the `cleaned_type` column for every row. -/
def clean_restaurant_types (df : List Row) : List Row :=
  df.map clean_row

/-- Pandas semantics of `df["rating"] >= min_rating` at one cell: false on a
missing rating. -/
def rating_ge (r : Row) (lo : ℚ) : Bool :=
  match r.rating with
  | none => false
  | some x => decide (lo ≤ x)

/-- Pandas semantics of `df["rating"] <= max_rating` at one cell: false on a
missing rating. -/
def rating_le (r : Row) (hi : ℚ) : Bool :=
  match r.rating with
  | none => false
  | some x => decide (x ≤ hi)

/-- Embedding of `filter_restaurants` (src/streamlit_app.py lines 107-119):
first the boolean-mask rating filter, then, when the selector is not the
sentinel "All", the `cleaned_type` equality filter (pandas `==` against a
missing `cleaned_type` is false, hence the `some` comparison). -/
def filter_restaurants (df : List Row) (rating_range : ℚ × ℚ)
    (selected_type : String) : List Row :=
  let min_rating := rating_range.1
  let max_rating := rating_range.2
  let filtered := df.filter (fun r => rating_ge r min_rating && rating_le r max_rating)
  if selected_type ≠ "All" then
    filtered.filter (fun r => decide (r.cleaned_type = some selected_type))
  else
    filtered

/-- Inclusion rule written from the spec's words (for comparison against the
code): a row is included iff `low <= rating <= high` (a missing rating fails
the range test) and (`category = "All"` or the row's `cleaned_type` equals
the selector). -/
def spec_keeps (lo hi : ℚ) (category : String) (r : Row) : Bool :=
  (match r.rating with
   | none => false
   | some x => decide (lo ≤ x ∧ x ≤ hi)) &&
  (decide (category = "All") || decide (r.cleaned_type = some category))

/-- Raw parsed frame: the header column names, the integer row index, and
the data rows as lists of cell strings. -/
structure RawFrame where
  cols : List String
  index : List Nat
  rows : List (List String)
deriving DecidableEq, Repr

/-- Non-blank lines of the CSV text (pandas `read_csv` skips blank lines by
default). -/
def csv_lines (text : String) : List String :=
  (text.splitOn "\n").filter (fun l => !l.isEmpty)

/-- Data records of the CSV text: every non-blank line after the header,
split on commas, in source-text order. -/
def csv_records (text : String) : List (List String) :=
  match csv_lines text with
  | [] => []
  | _ :: records => records.map (fun l => l.splitOn ",")

/-- Comma-delimited, header-row CSV parse producing a default dense integer
index, as `pd.read_csv` does on an in-memory text buffer (the library call
is external to the repository; its contract is the loader contract of the
spec: comma delimiting, a header row, row order as encountered in the
text). -/
def read_csv (text : String) : RawFrame :=
  match csv_lines text with
  | [] => { cols := [], index := [], rows := [] }
  | header :: records =>
      let rows := records.map (fun l => l.splitOn ",")
      { cols := header.splitOn ",", index := List.range rows.length, rows := rows }

/-- Embedding of `df.reset_index(drop=True)`: replace the index by the dense
zero-based range, dropping the old one. -/
def reset_index_drop (f : RawFrame) : RawFrame :=
  { f with index := List.range f.rows.length }

/-- Embedding of `load_data_from_csv` (src/streamlit_app.py lines 12-20):
parse the CSV text and reset the index. -/
def load_data_from_csv (text : String) : RawFrame :=
  reset_index_drop (read_csv text)

/-- Decimal-literal parse of a cell into a rational (sign, integer part,
optional fractional part); `none` on anything else. -/
def parseDecimal (s : String) : Option ℚ :=
  let neg := s.startsWith "-"
  let s1 := if neg then s.drop 1 else s
  match s1.splitOn "." with
  | [a] =>
      (a.toNat?).map (fun n => if neg then -(n : ℚ) else (n : ℚ))
  | [a, b] =>
      match a.toNat?, b.toNat? with
      | some n, some f =>
          let q : ℚ := (n : ℚ) + (f : ℚ) / (10 : ℚ) ^ b.length
          some (if neg then -q else q)
      | _, _ => none
  | _ => none

/-- Cell of a record under a named column, `none` when the column is absent
or the record is short. -/
def getCell (cols : List String) (fields : List String) (c : String) : Option String :=
  (cols.findIdx? (fun x => x = c)).bind (fun i => fields[i]?)

/-- Typed view of one raw record under the given header, with missing or
unparseable cells as `none` and `cleaned_type` not yet derived. -/
def row_of_fields (cols : List String) (fields : List String) : Row :=
  { title := (getCell cols fields "title").getD ""
  , rating := (getCell cols fields "rating").bind parseDecimal
  , reviews := (getCell cols fields "reviews").bind String.toInt?
  , type := getCell cols fields "type"
  , cleaned_type := none }

/-- Typed rows of a raw frame, in frame order. -/
def frame_rows (f : RawFrame) : List Row :=
  f.rows.map (row_of_fields f.cols)

/-- HTTP response as seen by `fetch_data_from_dropbox`: the status code and
the body text. -/
structure HttpResponse where
  status_code : Nat
  text : String
deriving DecidableEq, Repr

/-- Outcome of the fetch step: a loaded frame on success, or the fatal
error (carrying the HTTP status code) that `st.error` + `st.stop` raise. -/
inductive FetchOutcome where
  | ok : RawFrame → FetchOutcome
  | fetchError : Nat → FetchOutcome
deriving DecidableEq, Repr

/-- Embedding of `fetch_data_from_dropbox` (src/streamlit_app.py lines
22-34): on status 200 the body is loaded, on any other status the app stops
with an error carrying the status code. -/
def fetch_data_from_dropbox (resp : HttpResponse) : FetchOutcome :=
  if resp.status_code = 200 then
    FetchOutcome.ok (load_data_from_csv resp.text)
  else
    FetchOutcome.fetchError resp.status_code

/-- Outcome of one run of `main`: either the filtered table reaches the
presentation layer, or the run halted at the fetch with the given status. -/
inductive AppOutcome where
  | rendered : List Row → AppOutcome
  | halted : Nat → AppOutcome
deriving DecidableEq, Repr

/-- Embedding of the `main` control flow (src/streamlit_app.py lines
227-281) up to the presentation layer: fetch, then clean, then filter with
the user-selected range and category; `st.stop` inside the fetch aborts the
run before any parsing, cleaning or filtering of a table happens. -/
def run_app (resp : HttpResponse) (rating_range : ℚ × ℚ)
    (selected_type : String) : AppOutcome :=
  match fetch_data_from_dropbox resp with
  | FetchOutcome.fetchError s => AppOutcome.halted s
  | FetchOutcome.ok frame =>
      AppOutcome.rendered
        (filter_restaurants (clean_restaurant_types (frame_rows frame))
          rating_range selected_type)

/-- What the average-rating box shows: a numeric mean (possibly NaN, i.e.
`none`, when every rating is missing) or the empty-set placeholder text
"No restaurants found.". -/
inductive AvgDisplay where
  | average : Option ℚ → AvgDisplay
  | placeholder : AvgDisplay
deriving DecidableEq, Repr

/-- Pandas `df["rating"].mean()`: the mean of the non-missing ratings, NaN
(`none`) when there are none. -/
def rating_mean (df : List Row) : Option ℚ :=
  let vals := df.filterMap (fun r => r.rating)
  if vals.length = 0 then none
  else some (vals.sum / (vals.length : ℚ))

/-- Embedding of `display_average_rating` (src/streamlit_app.py lines
197-220): a styled mean box for a nonempty frame, the placeholder message
otherwise. -/
def display_average_rating (df : List Row) : AvgDisplay :=
  if 0 < df.length then AvgDisplay.average (rating_mean df)
  else AvgDisplay.placeholder

/-- Memoization cache of the loader, keyed by the exact input text. -/
structure CacheState where
  entries : List (String × RawFrame)
deriving DecidableEq, Repr

/-- Modelled from the spec: the `@st.cache_data` decorator on
`load_data_from_csv` lives in the streamlit library, not in src/; the spec
fixes its contract as memoization keyed by the exact input text content
(read-if-present, else compute-and-store).  The returned boolean records
whether the underlying parse routine was invoked on this call. -/
def cached_load (c : CacheState) (text : String) :
    RawFrame × CacheState × Bool :=
  match c.entries.lookup text with
  | some f => (f, c, false)
  | none =>
      let f := load_data_from_csv text
      (f, { entries := (text, f) :: c.entries }, true)

/-- Concrete row rated 3.5 for the spec's Scenario 3. -/
def row35 : Row :=
  { title := "A", rating := some (mkRat 35 10), reviews := some 10,
    type := some "Restaurang", cleaned_type := some "Restaurant" }

/-- Concrete row rated 4.2 for the spec's Scenario 3. -/
def row42 : Row :=
  { title := "B", rating := some (mkRat 42 10), reviews := some 20,
    type := some "Bistro", cleaned_type := some "Bistro" }

/-- Concrete row rated 4.9 for the spec's Scenario 3. -/
def row49 : Row :=
  { title := "C", rating := some (mkRat 49 10), reviews := some 30,
    type := some "Pizzeria", cleaned_type := some "Pizza" }

/-- Concrete row rated 5.0 for the spec's Scenario 3. -/
def row50 : Row :=
  { title := "D", rating := some (mkRat 50 10), reviews := some 40,
    type := some "Sushirestaurang", cleaned_type := some "Sushi" }

/-- Input row of the spec's Scenario 1. -/
def sushiPlaceRow : Row :=
  { title := "Sushi Place", rating := some (mkRat 45 10), reviews := none,
    type := some "Sushirestaurang", cleaned_type := none }

/-- Input row of the spec's Scenario 2. -/
def mysteryRow : Row :=
  { title := "Mystery", rating := some 3, reviews := none,
    type := some "Unknown Category", cleaned_type := none }

/-- Concrete row with a missing rating cell. -/
def rowNoRating : Row :=
  { title := "NullRated", rating := none, reviews := some 5,
    type := some "Bistro", cleaned_type := some "Bistro" }

/-- Concrete HTTP failure response (status 404) for the spec's Scenario 5. -/
def resp404 : HttpResponse :=
  { status_code := 404, text := "title,rating\nA,4.5\n" }

/-- The two boolean-mask comparisons of the code agree pointwise with the
spec's single conjunctive range test. -/
theorem rating_mask_eq_range_test (r : Row) (lo hi : ℚ) :
    (rating_ge r lo && rating_le r hi) =
      (match r.rating with
       | none => false
       | some x => decide (lo ≤ x ∧ x ≤ hi)) := by
  cases hr : r.rating with
  | none => simp [rating_ge, rating_le, hr]
  | some x => simp [rating_ge, rating_le, hr, Bool.decide_and]

/-- The code's two-stage filter equals one pass of the spec's inclusion
predicate. -/
theorem filter_restaurants_eq_spec_filter (df : List Row) (lo hi : ℚ)
    (category : String) :
    filter_restaurants df (lo, hi) category =
      df.filter (spec_keeps lo hi category) := by
  unfold filter_restaurants
  by_cases hc : category = "All"
  · rw [if_neg (fun hne => hne hc)]
    refine List.filter_congr (fun r _ => ?_)
    rw [rating_mask_eq_range_test]
    simp [spec_keeps, hc]
  · rw [if_pos hc, List.filter_filter]
    refine List.filter_congr (fun r _ => ?_)
    rw [Bool.and_comm, rating_mask_eq_range_test]
    simp [spec_keeps, hc]

/-- C1: for every table, rating range and category selector,
`filter_restaurants` returns exactly the rows of the input that satisfy the
spec's inclusion rule (`low <= rating <= high` and (`category = "All"` or
the row's `cleaned_type` equals the selector)); in particular, with range
(4.0, 5.0) and category "All" over rows rated 3.5, 4.2, 4.9, 5.0 it returns
the rows rated 4.2, 4.9 and 5.0. -/
theorem c1_filter_restaurants_inclusion_rule :
    (∀ (df : List Row) (lo hi : ℚ) (category : String),
      filter_restaurants df (lo, hi) category =
        df.filter (spec_keeps lo hi category)) ∧
    filter_restaurants [row35, row42, row49, row50] ((4 : ℚ), (5 : ℚ)) "All" =
      [row42, row49, row50] :=
  ⟨filter_restaurants_eq_spec_filter, by decide⟩

/-- C2: the normalizer writes `cleaned_type` as the mapping image of `type`
when `type` is a key, and as the value of `type` verbatim otherwise (a null
`type` yields a null `cleaned_type`); it is total, so an unmapped value
never raises.  In particular "Sushirestaurang" maps to "Sushi" and the
unmapped "Unknown Category" passes through unchanged. -/
theorem c2_clean_types_mapping_or_passthrough :
    (∀ df : List Row,
      (clean_restaurant_types df).map (fun r => r.cleaned_type) =
        df.map (fun r => r.type.map (fun t => (type_mapping.lookup t).getD t))) ∧
    (clean_restaurant_types [sushiPlaceRow]).map (fun r => r.cleaned_type) =
      [some "Sushi"] ∧
    (clean_restaurant_types [mysteryRow]).map (fun r => r.cleaned_type) =
      [some "Unknown Category"] := by
  refine ⟨fun df => ?_, by decide, by decide⟩
  simp only [clean_restaurant_types, List.map_map]
  rfl

/-- C3: with inverted bounds (`low > high`) the filter returns the empty
table for every input and selector; the bounds are not swapped. -/
theorem c3_inverted_bounds_give_empty (df : List Row) (category : String)
    (lo hi : ℚ) (h : hi < lo) :
    filter_restaurants df (lo, hi) category = [] := by
  rw [filter_restaurants_eq_spec_filter, List.filter_eq_nil_iff]
  intro r _
  cases hr : r.rating with
  | none => simp [spec_keeps, hr]
  | some x =>
      simp only [spec_keeps, hr, Bool.and_eq_true, decide_eq_true_eq]
      rintro ⟨⟨hlo, hhi⟩, -⟩
      exact absurd (hlo.trans hhi) (not_le.mpr h)

/-- Witness for C3 at a concrete inverted range (5, 4). -/
theorem c3_witness :
    (4 : ℚ) < 5 ∧ filter_restaurants [row35] ((5 : ℚ), (4 : ℚ)) "All" = [] :=
  ⟨by decide, c3_inverted_bounds_give_empty [row35] "All" 5 4 (by decide)⟩

/-- C4: a row whose rating cell is missing fails both mask comparisons and
is excluded from the filter result for every range and selector. -/
theorem c4_missing_rating_excluded (df : List Row) (rr : ℚ × ℚ)
    (category : String) (r : Row) (hnull : r.rating = none) :
    r ∉ filter_restaurants df rr category := by
  intro hmem
  have hrr : rr = (rr.1, rr.2) := rfl
  rw [hrr, filter_restaurants_eq_spec_filter, List.mem_filter] at hmem
  have := hmem.2
  rw [spec_keeps, hnull] at this
  simp at this

/-- Witness for C4: the null-rated row is dropped from a singleton table. -/
theorem c4_witness :
    rowNoRating ∉ filter_restaurants [rowNoRating] ((0 : ℚ), (5 : ℚ)) "All" :=
  c4_missing_rating_excluded [rowNoRating] ((0 : ℚ), (5 : ℚ)) "All" rowNoRating rfl

/-- C5: when no row of the input satisfies the inclusion predicate (in
particular when the input is empty), the filter returns the empty table
rather than an error, and the average-rating box shows the placeholder
message instead of a numeric mean. -/
theorem c5_empty_result_placeholder (df : List Row) (lo hi : ℚ)
    (category : String)
    (h : ∀ r ∈ df, spec_keeps lo hi category r = false) :
    filter_restaurants df (lo, hi) category = [] ∧
    display_average_rating (filter_restaurants df (lo, hi) category) =
      AvgDisplay.placeholder := by
  have hnil : filter_restaurants df (lo, hi) category = [] := by
    rw [filter_restaurants_eq_spec_filter, List.filter_eq_nil_iff]
    intro r hr
    simp [h r hr]
  exact ⟨hnil, by rw [hnil]; rfl⟩

/-- Witness for C5, the spec's Scenario 4: category "Pizza" over a table
with no Pizza row gives the empty table and the placeholder. -/
theorem c5_witness :
    (∀ r ∈ [row35, row42], spec_keeps 0 5 "Pizza" r = false) ∧
    filter_restaurants [row35, row42] ((0 : ℚ), (5 : ℚ)) "Pizza" = [] ∧
    display_average_rating
      (filter_restaurants [row35, row42] ((0 : ℚ), (5 : ℚ)) "Pizza") =
      AvgDisplay.placeholder :=
  ⟨by decide, c5_empty_result_placeholder [row35, row42] 0 5 "Pizza" (by decide)⟩

/-- C6: the fetch succeeds exactly on HTTP status 200, loading the body;
on any other status it produces the fatal error carrying the status code
and the run halts before any table is parsed, normalized, filtered or
rendered. -/
theorem c6_fetch_succeeds_iff_200 (resp : HttpResponse) (rr : ℚ × ℚ)
    (category : String) :
    (resp.status_code = 200 →
      fetch_data_from_dropbox resp =
        FetchOutcome.ok (load_data_from_csv resp.text) ∧
      run_app resp rr category =
        AppOutcome.rendered
          (filter_restaurants
            (clean_restaurant_types (frame_rows (load_data_from_csv resp.text)))
            rr category)) ∧
    (resp.status_code ≠ 200 →
      fetch_data_from_dropbox resp = FetchOutcome.fetchError resp.status_code ∧
      run_app resp rr category = AppOutcome.halted resp.status_code) := by
  constructor <;> intro h <;>
    simp [fetch_data_from_dropbox, run_app, h]

/-- Witness for C6, the spec's Scenario 5: a 404 response yields the fatal
error carrying 404 and the halted run. -/
theorem c6_witness :
    fetch_data_from_dropbox resp404 = FetchOutcome.fetchError 404 ∧
    run_app resp404 ((0 : ℚ), (5 : ℚ)) "All" = AppOutcome.halted 404 :=
  (c6_fetch_succeeds_iff_200 resp404 ((0 : ℚ), (5 : ℚ)) "All").2 (by decide)

/-- C7: the memoized loader, keyed by the exact input text, does not
re-invoke the parse routine on a second call with identical text (the
invoked flag of the second call is false) and returns the same frame as the
first call, from any starting cache. -/
theorem c7_cached_load_memoizes (c : CacheState) (text : String) :
    (cached_load (cached_load c text).2.1 text).2.2 = false ∧
    (cached_load (cached_load c text).2.1 text).1 = (cached_load c text).1 := by
  unfold cached_load
  cases hl : c.entries.lookup text with
  | some f => simp [hl]
  | none => simp [hl, List.lookup]

/-- C8: renormalizing an already-normalized table (reading `cleaned_type`
as the `type` input) leaves `cleaned_type` unchanged on every row whose
`cleaned_type` is not itself a key of the mapping. -/
theorem c8_renormalize_fixes_unmapped (df : List Row) (i : Nat) (r : Row)
    (hget : df[i]? = some r)
    (hkey : (r.cleaned_type.all fun t => (type_mapping.lookup t).isNone) = true) :
    ((clean_restaurant_types
        (df.map (fun s => { s with type := s.cleaned_type })))[i]?).map
      (fun s => s.cleaned_type) = some r.cleaned_type := by
  unfold clean_restaurant_types
  rw [List.map_map, List.getElem?_map, hget]
  cases hct : r.cleaned_type with
  | none => simp [clean_row, hct]
  | some t =>
      rw [hct] at hkey
      simp only [Option.all_some, Option.isNone_iff_eq_none] at hkey
      simp [clean_row, hct, hkey]

/-- Witness for C8: a row already normalized to "Sushi" (not a mapping key)
keeps `cleaned_type` "Sushi" under renormalization. -/
theorem c8_witness :
    ((clean_restaurant_types
        ([row50].map (fun s => { s with type := s.cleaned_type })))[0]?).map
      (fun s => s.cleaned_type) = some (some "Sushi") :=
  c8_renormalize_fixes_unmapped [row50] 0 row50 rfl (by decide)

/-- C9: the loader keeps the data records in source-text order and carries
the dense zero-based index 0..n-1 (`List.range` of the row count: no gaps,
no duplicates, nothing reused from a prior index). -/
theorem c9_load_order_and_dense_index (text : String) :
    (load_data_from_csv text).rows = csv_records text ∧
    (load_data_from_csv text).index =
      List.range (load_data_from_csv text).rows.length := by
  unfold load_data_from_csv reset_index_drop read_csv csv_records
  cases h : csv_lines text with
  | nil => simp
  | cons a l => simp

/-- C10: the filter output is a sublist of the input table: every returned
row is a row of the input with unchanged field values, in the input's
relative order; the input list itself is untouched (the embedding is a pure
function of it). -/
theorem c10_filter_output_sublist (df : List Row) (rr : ℚ × ℚ)
    (category : String) :
    (filter_restaurants df rr category).Sublist df := by
  unfold filter_restaurants
  by_cases h : category = "All"
  · rw [if_neg (fun hne => hne h)]
    exact List.filter_sublist df
  · rw [if_pos h]
    exact (List.filter_sublist _).trans (List.filter_sublist df)

end RestaurantApp
